import Mathlib

/-!
# Verification of the artisan-framework user resource

Shallow embedding of the user CRUD service and its HTTP route handlers
(`src/routes/users.py`, `src/app/requests/user.py`).  The service layer
(`app/services/user.py`) is not part of the reviewed sources, so it is
modelled from the specification (each such definition is marked
`Modelled from the spec:`).  The route handlers are translated directly
from `src/routes/users.py`, including the Python exception semantics:
`fastapi.HTTPException` is a subclass of `Exception` (but not of
`ValueError`), so an `except Exception` clause catches it.
-/

/-- The persisted `User` entity (conceptual table `users`): id (primary key),
username, email, password, created_at, updated_at.  Timestamps are opaque
totally ordered values, embedded as `Nat`. -/
structure User where
  id : Nat
  username : String
  email : String
  password : String
  created_at : Nat
  updated_at : Nat
deriving Repr, DecidableEq

/-- Python exceptions, as far as the handlers distinguish them: a
`fastapi.HTTPException` carries a status code and a detail string, a
`ValueError` and any other `Exception` carry their message (`str(e)`).
Every constructor is an `Exception`; only `valueError` is a `ValueError`;
only `http` is an `HTTPException`. -/
inductive PyExc where
  | http : Nat → String → PyExc
  | valueError : String → PyExc
  | other : String → PyExc
deriving Repr, DecidableEq

/-- `str(e)` for an exception: `str` of a `fastapi.HTTPException` shows its
status and detail; for the others it is the message. -/
def PyExc.msg : PyExc → String
  | .http s m => toString s ++ ": " ++ m
  | .valueError m => m
  | .other m => m

/-- An HTTP error response produced by raising `HTTPException`. -/
structure HTTPError where
  status_code : Nat
  detail : String
deriving Repr, DecidableEq

/-- Result tuple of `UserService.all`, unpacked in the route as
`items, total, last_page, first_item, last_item`. -/
structure ListResult where
  items : List User
  total : Nat
  last_page : Nat
  first_item : Nat
  last_item : Nat
deriving Repr, DecidableEq

namespace UserService

/-- Modelled from the spec: the sort field is restricted to the recognized
set of User attributes (id, username, email, created_at, updated_at); an
unrecognized field falls back silently to the default sort key `id`. -/
def sortKeyLe (sort_by : String) (a b : User) : Bool :=
  match sort_by with
  | "id" => a.id ≤ b.id
  | "username" => a.username ≤ b.username
  | "email" => a.email ≤ b.email
  | "created_at" => a.created_at ≤ b.created_at
  | "updated_at" => a.updated_at ≤ b.updated_at
  | _ => a.id ≤ b.id

/-- Insert a row into a list already ordered by `le`. -/
def insertBy (le : User → User → Bool) (a : User) : List User → List User
  | [] => [a]
  | b :: bs => if le a b then a :: b :: bs else b :: insertBy le a bs

/-- Order rows by `le` (insertion sort). -/
def sortRows (le : User → User → Bool) : List User → List User
  | [] => []
  | a :: as => insertBy le a (sortRows le as)

/-- Modelled from the spec: rows ordered by the requested sort field; the
sort direction is ascending or descending, an unrecognized value defaults
to ascending. -/
def sorted (rows : List User) (sort_type sort_by : String) : List User :=
  let asc := sortRows (sortKeyLe sort_by) rows
  if sort_type = "desc" then asc.reverse else asc

/-- Modelled from the spec: `list(page, itemsPerPage, sortBy, sortType)`.
Computes `offset = (page-1) * itemsPerPage`; `total` is the count of all
User rows; `lastPage = ceil(total / itemsPerPage)`, minimum 1;
`items` is the page slice of the ordered rows; `firstItemIndex = offset + 1`
(1-based) when items exist, else 0; `lastItemIndex = offset + len(items)`.
Returns an empty sequence (not an error) when the page is beyond range. -/
def all (rows : List User) (page items_per_page : Nat)
    (sort_type sort_by : String) : ListResult :=
  let offset := (page - 1) * items_per_page
  let total := rows.length
  let last_page := max ((total + items_per_page - 1) / items_per_page) 1
  let items := ((sorted rows sort_type sort_by).drop offset).take items_per_page
  { items := items
    total := total
    last_page := last_page
    first_item := if items.isEmpty then 0 else offset + 1
    last_item := offset + items.length }

/-- Modelled from the spec: `find(id) -> User | absent`.  Exact-match
lookup, no side effects; absent is not an error at this layer. -/
def find (rows : List User) (id : Nat) : Option User :=
  rows.find? (fun r => r.id == id)

/-- Modelled from the spec: `update(id, edits: {username?}) -> User | absent`.
If no row matches `id`, returns absent.  Otherwise applies only the
username field and updates `updated_at`, returning the updated entity
together with the new table contents. -/
def update (rows : List User) (id : Nat) (username : String) (now : Nat) :
    Option User × List User :=
  match find rows id with
  | none => (none, rows)
  | some u =>
      let u' : User := { u with username := username, updated_at := now }
      (some u', rows.map (fun r => if r.id == id then u' else r))

/-- Modelled from the spec: `delete(id) -> User | absent`.  If found,
removes the row and returns the entity as it was immediately before
deletion; if not found, returns absent. -/
def delete (rows : List User) (id : Nat) : Option User × List User :=
  match find rows id with
  | none => (none, rows)
  | some u => (some u, rows.eraseP (fun r => r.id == id))

end UserService

/-- Response of the single-user endpoints: `{"data": user, "status_code": ...}`. -/
structure SingleUserResponse where
  data : User
  status_code : Nat
deriving Repr, DecidableEq

/-- The `meta` object of the paginated response. -/
structure PaginatedMeta where
  current_page : Nat
  last_page : Nat
  first_item : Nat
  last_item : Nat
  items_per_page : Nat
  total : Nat
deriving Repr, DecidableEq

/-- Response of the list endpoint: `{"data": [...], "meta": {...},
"status_code": 200}`. -/
structure PaginatedUserResponse where
  data : List User
  meta : PaginatedMeta
  status_code : Nat
deriving Repr, DecidableEq

/-!
## Route handlers (`src/routes/users.py`)

Each handler is embedded as a function of the outcome of its
`user_service` call: `Except.ok` is a normal return, `Except.error e` the
call raising the exception `e` (e.g. an unexpected storage failure).  The
`try`/`except` block is embedded as a match on the body's outcome,
applying the handler's `except` clauses in source order: an
`except ValueError` arm catches only `PyExc.valueError`, an
`except HTTPException` arm only `PyExc.http`, and an `except Exception`
arm catches every constructor, `PyExc.http` included.  The handler result
is `Except.ok` a response or `Except.error` the `HTTPException` surfaced
to the transport layer.
-/

/-- `get_users` (`src/routes/users.py:23`): unpacks the service result,
raises `ValueError("No users found")` when `items` is empty, otherwise
returns the envelope; `except ValueError` maps to 404 with the error's
message, `except Exception` maps to 500 `"Internal server error"`. -/
def get_users (svc : Except PyExc ListResult) (page items_per_page : Nat) :
    Except HTTPError PaginatedUserResponse :=
  let body : Except PyExc PaginatedUserResponse := do
    let r ← svc
    if r.items.isEmpty then
      Except.error (PyExc.valueError "No users found")
    else
      pure { data := r.items
             meta := { current_page := page
                       last_page := r.last_page
                       first_item := r.first_item
                       last_item := r.last_item
                       items_per_page := items_per_page
                       total := r.total }
             status_code := 200 }
  match body with
  | Except.ok resp => Except.ok resp
  | Except.error (PyExc.valueError m) =>
      Except.error { status_code := 404, detail := m }
  | Except.error _ =>
      Except.error { status_code := 500, detail := "Internal server error" }

/-- `get_user` (`src/routes/users.py:71`): raises
`HTTPException(404, "User not found")` when the service signals absence;
the single `except Exception` clause catches every exception — the 404
`HTTPException` included — and raises 500 `"Internal server error"`. -/
def get_user (svc : Except PyExc (Option User)) :
    Except HTTPError SingleUserResponse :=
  let body : Except PyExc SingleUserResponse := do
    let user ← svc
    match user with
    | none => Except.error (PyExc.http 404 "User not found")
    | some u => pure { data := u, status_code := 200 }
  match body with
  | Except.ok resp => Except.ok resp
  | Except.error _ =>
      Except.error { status_code := 500, detail := "Internal server error" }

/-- `create_user` (`src/routes/users.py:92`): returns the created entity
with status 201; `except Exception` maps to 500 `"Internal server error"`. -/
def create_user (svc : Except PyExc User) :
    Except HTTPError SingleUserResponse :=
  let body : Except PyExc SingleUserResponse := do
    let created ← svc
    pure { data := created, status_code := 201 }
  match body with
  | Except.ok resp => Except.ok resp
  | Except.error _ =>
      Except.error { status_code := 500, detail := "Internal server error" }

/-- `update_user` (`src/routes/users.py:115`): raises
`HTTPException(404, "User not found")` when the service returns absent;
`except ValueError` maps to 400 with `str(e)`, and `except Exception` —
which also catches the 404 `HTTPException` — maps to 500
`"Internal server error"`. -/
def update_user (svc : Except PyExc (Option User)) :
    Except HTTPError SingleUserResponse :=
  let body : Except PyExc SingleUserResponse := do
    let updated ← svc
    match updated with
    | none => Except.error (PyExc.http 404 "User not found")
    | some u => pure { data := u, status_code := 200 }
  match body with
  | Except.ok resp => Except.ok resp
  | Except.error (PyExc.valueError m) =>
      Except.error { status_code := 400, detail := m }
  | Except.error _ =>
      Except.error { status_code := 500, detail := "Internal server error" }

/-- `delete_user` (`src/routes/users.py:148`): raises
`HTTPException(500, "Failed to delete user")` when the service returns
absent; `except HTTPException` re-raises unchanged, and `except Exception`
raises 500 with detail `f"Internal server error {e}"` — the original
error's message appended. -/
def delete_user (svc : Except PyExc (Option User)) :
    Except HTTPError SingleUserResponse :=
  let body : Except PyExc SingleUserResponse := do
    let user ← svc
    match user with
    | none => Except.error (PyExc.http 500 "Failed to delete user")
    | some u => pure { data := u, status_code := 200 }
  match body with
  | Except.ok resp => Except.ok resp
  | Except.error (PyExc.http s m) =>
      Except.error { status_code := s, detail := m }
  | Except.error e =>
      Except.error { status_code := 500, detail := "Internal server error " ++ e.msg }

/-- The module-level shared service instance
(`user_service = UserService(db=None)`, `src/routes/users.py:16`): a
single object whose `db` field holds an optional storage session
(sessions identified by `Nat`). -/
structure UserServiceState where
  db : Option Nat
deriving Repr, DecidableEq

/-- The statement `user_service.db = db` executed at the start of every
handler: mutates the shared instance's session reference. -/
def assignSession (s : UserServiceState) (session : Nat) : UserServiceState :=
  { s with db := some session }

/-!
## Request schemas (`src/app/requests/user.py`)

`UserCreateRequest` declares `username: str`, `email: str`,
`password: str`; `UserEditRequest` inherits from it and overrides
`email: None` and `password: None`.  Validation follows Pydantic v2
semantics: every field without a default is required, and a field
annotated `None` accepts only the JSON literal `null`.
-/

/-- A JSON value, as far as these schemas distinguish them. -/
inductive JValue where
  | str : String → JValue
  | num : Int → JValue
  | null : JValue
deriving Repr, DecidableEq

/-- The annotation of a Pydantic field in these schemas: `str` or `None`. -/
inductive FieldType where
  | str : FieldType
  | null : FieldType
deriving Repr, DecidableEq

/-- A JSON object payload: its key/value pairs. -/
def lookupField (payload : List (String × JValue)) (k : String) : Option JValue :=
  (payload.find? (fun kv => kv.1 == k)).map (fun kv => kv.2)

/-- A value conforms to a field annotation: `str` accepts exactly JSON
strings, `None` accepts exactly the literal `null`. -/
def validateField : FieldType → JValue → Bool
  | FieldType.str, JValue.str _ => true
  | FieldType.null, JValue.null => true
  | _, _ => false

/-- One field check: the field is present in the payload (no defaults, so
every declared field is required) and its value conforms to the
annotation. -/
def checkField (payload : List (String × JValue)) (k : String)
    (t : FieldType) : Bool :=
  match lookupField payload k with
  | some v => validateField t v
  | none => false

/-- A payload conforms to a model's field list: every declared field
passes its check. -/
def validateModel (fields : List (String × FieldType))
    (payload : List (String × JValue)) : Bool :=
  fields.all fun kv => checkField payload kv.1 kv.2

/-- Subclass field override: redeclaring a field replaces the inherited
annotation. -/
def overrideField (fields : List (String × FieldType)) (k : String)
    (t : FieldType) : List (String × FieldType) :=
  fields.map fun kv => if kv.1 == k then (k, t) else kv

/-- `class UserCreateRequest(BaseModel)`: three required string fields. -/
def UserCreateRequest.fields : List (String × FieldType) :=
  [("username", FieldType.str), ("email", FieldType.str),
   ("password", FieldType.str)]

/-- `class UserEditRequest(UserCreateRequest)`: inherits the create
schema's fields and overrides `email: None` and `password: None`. -/
def UserEditRequest.fields : List (String × FieldType) :=
  overrideField (overrideField UserCreateRequest.fields "email" FieldType.null)
    "password" FieldType.null

/-- `s` has `sub` as a contiguous substring. -/
def strContains (s sub : String) : Prop :=
  ∃ pre post, s = pre ++ sub ++ post

/-- A fixed persisted user, for concrete instantiations. -/
def sampleUser : User :=
  { id := 1, username := "alice", email := "alice@example.com"
    password := "password123", created_at := 10, updated_at := 10 }

/-- A store of five persisted users with ids 1..5. -/
def users5 : List User :=
  [{ id := 1, username := "u1", email := "e1", password := "p1",
     created_at := 1, updated_at := 1 },
   { id := 2, username := "u2", email := "e2", password := "p2",
     created_at := 2, updated_at := 2 },
   { id := 3, username := "u3", email := "e3", password := "p3",
     created_at := 3, updated_at := 3 },
   { id := 4, username := "u4", email := "e4", password := "p4",
     created_at := 4, updated_at := 4 },
   { id := 5, username := "u5", email := "e5", password := "p5",
     created_at := 5, updated_at := 5 }]

/-- A fixed service list result with one item, for concrete instantiations. -/
def sampleList : ListResult :=
  { items := [sampleUser], total := 1, last_page := 1,
    first_item := 1, last_item := 1 }

/-!
## Helper lemmas
-/

theorem length_insertBy (le : User → User → Bool) (a : User) :
    ∀ l : List User, (UserService.insertBy le a l).length = l.length + 1 := by
  intro l
  induction l with
  | nil => rfl
  | cons b bs ih =>
      by_cases h : le a b = true
      · simp [UserService.insertBy, h]
      · simp [UserService.insertBy, h, ih]

theorem length_sortRows (le : User → User → Bool) :
    ∀ l : List User, (UserService.sortRows le l).length = l.length := by
  intro l
  induction l with
  | nil => rfl
  | cons a as ih => simp [UserService.sortRows, length_insertBy, ih]

theorem length_sorted (rows : List User) (sort_type sort_by : String) :
    (UserService.sorted rows sort_type sort_by).length = rows.length := by
  unfold UserService.sorted
  by_cases h : sort_type = "desc"
  · simp [h, length_sortRows]
  · simp [h, length_sortRows]

/-- The `first_item` and `last_item` fields of a `UserService.all` result,
in terms of its `items` field. -/
theorem all_indices (rows : List User) (page items_per_page : Nat)
    (sort_type sort_by : String) :
    (UserService.all rows page items_per_page sort_type sort_by).first_item =
      (if (UserService.all rows page items_per_page sort_type sort_by).items.isEmpty
        then 0 else (page - 1) * items_per_page + 1) ∧
    (UserService.all rows page items_per_page sort_type sort_by).last_item =
      (page - 1) * items_per_page +
        (UserService.all rows page items_per_page sort_type sort_by).items.length :=
  ⟨rfl, rfl⟩

/-- Replacing the first hit of `p` by an element that still satisfies `p`
moves `find?` to the replacement. -/
theorem find?_replace {α : Type} {p : α → Bool} {u u' : α} (hp : p u' = true) :
    ∀ {rows : List α}, rows.find? p = some u →
      (rows.map fun r => if p r then u' else r).find? p = some u' := by
  intro rows
  induction rows with
  | nil => intro h; cases h
  | cons a as ih =>
      intro h
      by_cases ha : p a = true
      · simp [List.map_cons, if_pos ha, List.find?_cons_of_pos, hp]
      · rw [List.find?_cons_of_neg _ (by simp [ha])] at h
        simpa [List.map_cons, if_neg ha, List.find?_cons_of_neg, ha] using ih h

/-!
## Claim theorems
-/

/-- Claim C1: for a get-single-user request whose id matches no persisted
user, the service signals absence without raising (`find` returns `none`),
but the boundary layer does NOT return 404: the handler's own
`except Exception` clause catches the `HTTPException(404)` it just raised
and re-raises it as a 500 `"Internal server error"`.  Evaluated at the
failing input (empty store, id 1). -/
theorem get_user_not_found_returns_500 :
    UserService.find [] 1 = none ∧
    get_user (Except.ok (UserService.find [] 1)) =
      Except.error { status_code := 500, detail := "Internal server error" } :=
  ⟨rfl, rfl⟩

/-- Claim C2: for an update request whose id matches no persisted user,
the service returns absent, but the boundary layer does NOT map this to
404: `except ValueError` does not catch the raised `HTTPException(404)`,
and the subsequent `except Exception` does, re-raising it as a 500
`"Internal server error"`.  Evaluated at the failing input (empty store,
id 1, payload username `"new"`). -/
theorem update_user_not_found_returns_500 :
    (UserService.update [] 1 "new" 0).1 = none ∧
    update_user (Except.ok (UserService.update [] 1 "new" 0).1) =
      Except.error { status_code := 500, detail := "Internal server error" } :=
  ⟨rfl, rfl⟩

/-- Claim C3, counterexample: for a delete request whose id matches no
persisted user, the service returns absent but the boundary layer raises
`HTTPException(500, "Failed to delete user")` — status 500, not the 404
the claim states. -/
theorem delete_user_not_found_counterexample :
    (UserService.delete [] 1).1 = none ∧
    delete_user (Except.ok (UserService.delete [] 1).1) =
      Except.error { status_code := 500, detail := "Failed to delete user" } :=
  ⟨rfl, rfl⟩

/-- Claim C3, amended: for a delete request whose id matches no persisted
user, the service returns absent and the boundary layer surfaces a 500
error with detail `"Failed to delete user"` (not a 404); when the id
matches, the response carries the entity as it was immediately before
deletion with status 200. -/
theorem delete_user_maps_absent_to_500_and_found_to_200
    (rows : List User) (id : Nat) :
    ((UserService.delete rows id).1 = none →
      delete_user (Except.ok (UserService.delete rows id).1) =
        Except.error { status_code := 500, detail := "Failed to delete user" }) ∧
    (∀ u, UserService.find rows id = some u →
      (UserService.delete rows id).1 = some u ∧
      delete_user (Except.ok (UserService.delete rows id).1) =
        Except.ok { data := u, status_code := 200 }) := by
  constructor
  · intro h
    rw [h]
    rfl
  · intro u hu
    have hd : (UserService.delete rows id).1 = some u := by
      simp [UserService.delete, hu]
    exact ⟨hd, by rw [hd]; rfl⟩

/-- Claim C3, witness: deleting the one persisted user with id 1 returns
the entity as it was immediately before deletion, with status 200. -/
theorem delete_user_maps_absent_to_500_and_found_to_200_witness :
    UserService.find [sampleUser] 1 = some sampleUser ∧
    (UserService.delete [sampleUser] 1).1 = some sampleUser ∧
    delete_user (Except.ok (UserService.delete [sampleUser] 1).1) =
      Except.ok { data := sampleUser, status_code := 200 } :=
  ⟨rfl, (delete_user_maps_absent_to_500_and_found_to_200 [sampleUser] 1).2
    sampleUser rfl⟩

/-- Claim C4, counterexample: an unexpected (non-HTTP, non-validation)
failure in `delete_user` is surfaced with status 500 whose detail
`f"Internal server error {e}"` contains the original error's message
(here `"boom"`), so the original error IS leaked to the caller. -/
theorem delete_user_leaks_error_counterexample :
    delete_user (Except.error (PyExc.other "boom")) =
      Except.error { status_code := 500, detail := "Internal server error boom" } ∧
    strContains "Internal server error boom" "boom" :=
  ⟨rfl, ⟨"Internal server error ", "", rfl⟩⟩

/-- Claim C4, amended: every handler maps an unexpected (non-HTTP,
non-validation) failure to status 500; `get_users`, `get_user`,
`create_user` and `update_user` use the fixed detail
`"Internal server error"`, independent of the original error, but
`delete_user` appends the original error's message to its detail. -/
theorem unexpected_failure_maps_to_500 (m : String) (page items_per_page : Nat) :
    get_users (Except.error (PyExc.other m)) page items_per_page =
      Except.error { status_code := 500, detail := "Internal server error" } ∧
    get_user (Except.error (PyExc.other m)) =
      Except.error { status_code := 500, detail := "Internal server error" } ∧
    create_user (Except.error (PyExc.other m)) =
      Except.error { status_code := 500, detail := "Internal server error" } ∧
    update_user (Except.error (PyExc.other m)) =
      Except.error { status_code := 500, detail := "Internal server error" } ∧
    delete_user (Except.error (PyExc.other m)) =
      Except.error { status_code := 500, detail := "Internal server error " ++ m } :=
  ⟨rfl, rfl, rfl, rfl, rfl⟩

theorem checkField_str_iff (payload : List (String × JValue)) (k : String) :
    checkField payload k FieldType.str = true ↔
      ∃ s, lookupField payload k = some (JValue.str s) := by
  cases h : lookupField payload k with
  | none => simp [checkField, h]
  | some v => cases v <;> simp [checkField, h, validateField]

theorem checkField_null_iff (payload : List (String × JValue)) (k : String) :
    checkField payload k FieldType.null = true ↔
      lookupField payload k = some JValue.null := by
  cases h : lookupField payload k with
  | none => simp [checkField, h]
  | some v => cases v <;> simp [checkField, h, validateField]

/-- Claim C5: applying an update alters at most `username` and
`updated_at`: after `update(id, {username})`, `find(id)` returns a user
whose email and password equal their pre-update values and whose username
is the requested one, and the entity the update returns is that same
user. -/
theorem update_preserves_email_and_password (rows : List User) (id : Nat)
    (username : String) (now : Nat) (u : User)
    (h : UserService.find rows id = some u) :
    ∃ u', (UserService.update rows id username now).1 = some u' ∧
      UserService.find (UserService.update rows id username now).2 id = some u' ∧
      u'.email = u.email ∧ u'.password = u.password ∧ u'.username = username := by
  refine ⟨{ u with username := username, updated_at := now }, ?_, ?_, rfl, rfl, rfl⟩
  · simp [UserService.update, h]
  · have h' : rows.find? (fun r => r.id == id) = some u := h
    have hu : (fun r : User => r.id == id) u = true :=
      List.find?_some (p := fun r : User => r.id == id) (a := u) h'
    have hfst : UserService.update rows id username now =
        (some { u with username := username, updated_at := now },
         rows.map fun r =>
           if r.id == id then { u with username := username, updated_at := now }
           else r) := by
      simp [UserService.update, h]
    rw [hfst]
    have hu2 : (fun r : User => r.id == id)
        { u with username := username, updated_at := now } = true := hu
    exact find?_replace (p := fun r : User => r.id == id) hu2 h'

/-- Claim C5, witness: updating the one persisted user with id 1 to
username `"new"` leaves email and password unchanged. -/
theorem update_preserves_email_and_password_witness :
    UserService.find [sampleUser] 1 = some sampleUser ∧
    ∃ u', (UserService.update [sampleUser] 1 "new" 5).1 = some u' ∧
      UserService.find (UserService.update [sampleUser] 1 "new" 5).2 1 = some u' ∧
      u'.email = sampleUser.email ∧ u'.password = sampleUser.password ∧
      u'.username = "new" :=
  ⟨rfl, update_preserves_email_and_password [sampleUser] 1 "new" 5 sampleUser rfl⟩

/-- Claim C6: a payload is accepted by the edit schema exactly when it
contains all three fields, with `username` a string and `email` and
`password` both the literal `null`; omitting `email` or `password`, or
supplying a string for either, is rejected. -/
theorem userEditRequest_requires_null_email_password
    (payload : List (String × JValue)) :
    validateModel UserEditRequest.fields payload = true ↔
      ((∃ s, lookupField payload "username" = some (JValue.str s)) ∧
       lookupField payload "email" = some JValue.null ∧
       lookupField payload "password" = some JValue.null) := by
  have hrepr : validateModel UserEditRequest.fields payload =
      (checkField payload "username" FieldType.str &&
       (checkField payload "email" FieldType.null &&
        (checkField payload "password" FieldType.null && true))) := rfl
  rw [hrepr]
  simp only [Bool.and_true, Bool.and_eq_true]
  rw [checkField_str_iff, checkField_null_iff, checkField_null_iff]

/-- Claim C7: for valid `page > 0` and `items_per_page > 0`, the listing
operation computes `offset = (page-1) * items_per_page` and satisfies
`first_item = offset + 1` and `last_item - first_item + 1 = len(items)`
when items are non-empty, and `first_item = 0` otherwise. -/
theorem all_pagination_indices (rows : List User) (page items_per_page : Nat)
    (sort_type sort_by : String) (hp : 0 < page) (hi : 0 < items_per_page) :
    ((UserService.all rows page items_per_page sort_type sort_by).items ≠ [] →
      (UserService.all rows page items_per_page sort_type sort_by).first_item =
        (page - 1) * items_per_page + 1 ∧
      (UserService.all rows page items_per_page sort_type sort_by).last_item -
        (UserService.all rows page items_per_page sort_type sort_by).first_item + 1 =
        (UserService.all rows page items_per_page sort_type sort_by).items.length) ∧
    ((UserService.all rows page items_per_page sort_type sort_by).items = [] →
      (UserService.all rows page items_per_page sort_type sort_by).first_item = 0) := by
  obtain ⟨hf, hl⟩ := all_indices rows page items_per_page sort_type sort_by
  constructor
  · intro hne
    have hE : (UserService.all rows page items_per_page sort_type sort_by).items.isEmpty
        = false := by
      rcases hc : (UserService.all rows page items_per_page sort_type sort_by).items with
        _ | ⟨a, as⟩
      · exact absurd hc hne
      · rfl
    have hfi : (UserService.all rows page items_per_page sort_type sort_by).first_item =
        (page - 1) * items_per_page + 1 := by
      rw [hf, hE]
      rfl
    refine ⟨hfi, ?_⟩
    rw [hl, hfi]
    have hlen :
        0 < (UserService.all rows page items_per_page sort_type sort_by).items.length :=
      List.length_pos.mpr hne
    omega
  · intro he
    rw [hf, he]
    rfl

/-- Claim C7, witness: five users, page 1, two items per page. -/
theorem all_pagination_indices_witness :
    0 < 1 ∧ 0 < 2 ∧
    (UserService.all users5 1 2 "asc" "id").items ≠ [] ∧
    (UserService.all users5 1 2 "asc" "id").first_item = (1 - 1) * 2 + 1 ∧
    (UserService.all users5 1 2 "asc" "id").last_item -
      (UserService.all users5 1 2 "asc" "id").first_item + 1 =
      (UserService.all users5 1 2 "asc" "id").items.length :=
  ⟨by decide, by decide, by decide,
    (all_pagination_indices users5 1 2 "asc" "id" (by decide) (by decide)).1 (by decide)⟩

/-- Claim C8: for a page beyond the last page (`offset >= total`, with
`total` the row count), the listing operation returns an empty item
sequence as its ordinary return value (the operation is a total function:
it raises nothing), with `first_item = 0`. -/
theorem all_beyond_range_returns_empty (rows : List User)
    (page items_per_page : Nat) (sort_type sort_by : String)
    (hp : 0 < page) (hi : 0 < items_per_page)
    (h : rows.length ≤ (page - 1) * items_per_page) :
    (UserService.all rows page items_per_page sort_type sort_by).items = [] ∧
    (UserService.all rows page items_per_page sort_type sort_by).first_item = 0 := by
  have hit : (UserService.all rows page items_per_page sort_type sort_by).items =
      ((UserService.sorted rows sort_type sort_by).drop
        ((page - 1) * items_per_page)).take items_per_page := rfl
  have hd : (UserService.sorted rows sort_type sort_by).drop
      ((page - 1) * items_per_page) = [] := by
    apply List.drop_eq_nil_of_le
    rw [length_sorted]
    exact h
  have hempty : (UserService.all rows page items_per_page sort_type sort_by).items = [] := by
    rw [hit, hd]
    exact List.take_nil
  obtain ⟨hf, _⟩ := all_indices rows page items_per_page sort_type sort_by
  refine ⟨hempty, ?_⟩
  rw [hf, hempty]
  rfl

/-- Claim C8, witness: five users, page 4 with two items per page
(`offset = 6 >= total = 5`). -/
theorem all_beyond_range_returns_empty_witness :
    0 < 4 ∧ 0 < 2 ∧ users5.length ≤ (4 - 1) * 2 ∧
    (UserService.all users5 4 2 "asc" "id").items = [] ∧
    (UserService.all users5 4 2 "asc" "id").first_item = 0 :=
  ⟨by decide, by decide, by decide,
    all_beyond_range_returns_empty users5 4 2 "asc" "id"
      (by decide) (by decide) (by decide)⟩

/-- Claim C9: a successful list request returns the envelope
`{data, meta: {current_page, last_page, first_item, last_item,
items_per_page, total}, status_code: 200}`, with the meta fields equal to
the request's page and items-per-page and the service result's last page,
first item index, last item index and total. -/
theorem get_users_success_envelope (r : ListResult) (page items_per_page : Nat)
    (h : r.items ≠ []) :
    get_users (Except.ok r) page items_per_page =
      Except.ok { data := r.items
                  meta := { current_page := page
                            last_page := r.last_page
                            first_item := r.first_item
                            last_item := r.last_item
                            items_per_page := items_per_page
                            total := r.total }
                  status_code := 200 } := by
  obtain ⟨items, total, last_page, first_item, last_item⟩ := r
  rcases items with _ | ⟨a, as⟩
  · exact absurd rfl h
  · rfl

/-- Claim C9, witness: a one-item service result on page 1 with ten items
per page. -/
theorem get_users_success_envelope_witness :
    sampleList.items ≠ [] ∧
    get_users (Except.ok sampleList) 1 10 =
      Except.ok { data := sampleList.items
                  meta := { current_page := 1
                            last_page := sampleList.last_page
                            first_item := sampleList.first_item
                            last_item := sampleList.last_item
                            items_per_page := 10
                            total := sampleList.total }
                  status_code := 200 } :=
  ⟨by decide, get_users_success_envelope sampleList 1 10 (by decide)⟩

/-- Claim C10, counterexample: the session IS retained as mutable state on
the shared module-level service object.  Request A assigns its session 1
(`user_service.db = db`), request B then assigns its session 2; the shared
instance — which A's subsequent service calls read — now holds B's
session, not A's. -/
theorem shared_service_session_counterexample :
    (assignSession (assignSession { db := none } 1) 2).db = some 2 ∧
    some 2 ≠ some (1 : Nat) :=
  ⟨rfl, by decide⟩

/-- Claim C10, amended: the per-request session is retained as mutable
state on the module-level shared `user_service` object; after a second
request's `user_service.db = db` assignment, the shared instance holds the
second request's session, so the first request's in-flight service calls
observe the other request's session. -/
theorem shared_service_session_overwritten (s0 : UserServiceState)
    (sA sB : Nat) (h : sA ≠ sB) :
    (assignSession (assignSession s0 sA) sB).db = some sB ∧
    (assignSession (assignSession s0 sA) sB).db ≠ some sA := by
  refine ⟨rfl, ?_⟩
  intro hc
  exact h (Option.some.inj hc).symm

/-- Claim C10, witness: sessions 1 and 2. -/
theorem shared_service_session_overwritten_witness :
    (1 : Nat) ≠ 2 ∧
    (assignSession (assignSession { db := none } 1) 2).db = some 2 ∧
    (assignSession (assignSession { db := none } 1) 2).db ≠ some 1 :=
  ⟨by decide, shared_service_session_overwritten { db := none } 1 2 (by decide)⟩
